import Mathlib

/-!
Verification of the `unishortcuts` build helper (`unishortcuts.py`).

The development shallowly embeds the module's data model and operations:
the `Shortcut` metadata record with its validating property setters, the
process-wide registry of constructed records (a set deduplicated by the
record equality, modelled as an insertion-ordered list), the platform
detection helper `_get_platform`, the icon-extension whitelist
`_ICON_EXT`, and the resolution routine
`build_shortcuts._get_metadatas`.

Python dynamic values relevant to the setters are modelled explicitly:
scalar inputs as `PyVal` (None / str / int / bool, with Python
truthiness and `str()` conversion), list-field inputs as `ListArg`, and
the icon argument as `IconArg`.  Fallible setters return
`Except String`; a raised exception is an `Except.error` carrying the
message.  External collaborators are inputs: the distribution metadata
is a `Distribution` record and the filesystem an `FS` record.
-/

/-- Python truthiness-relevant scalar values: `None`, `str`, `int`, `bool`. -/
inductive PyVal where
  | none
  | str (s : String)
  | int (n : Int)
  | bool (b : Bool)
deriving DecidableEq

/-- Python truthiness (`if s:`) for the modelled scalar values. -/
def pyTruthy : PyVal → Bool
  | PyVal.none => false
  | PyVal.str s => s != ""
  | PyVal.int n => n != 0
  | PyVal.bool b => b

/-- Python `str()` for the modelled scalar values. -/
def pyStr : PyVal → String
  | PyVal.none => "None"
  | PyVal.str s => s
  | PyVal.int n => toString n
  | PyVal.bool b => if b then "True" else "False"

/-- The scalar setters of `Shortcut` (`script`, `name`, `generic_name`,
`description`): `str(s) if s else ''`. -/
def setScalar (v : PyVal) : String := if pyTruthy v then pyStr v else ""

/-- Python whitespace characters recognised by `str.strip` and `\s`. -/
def pyIsSpace (c : Char) : Bool :=
  c = ' ' || c = '\t' || c = '\n' || c = '\r' || c = '\x0b' || c = '\x0c'

/-- `str.strip()`: drop leading and trailing whitespace. -/
def pyStrip (s : String) : String :=
  String.mk (((s.data.dropWhile pyIsSpace).reverse.dropWhile pyIsSpace).reverse)

/-- Worker for `re.split(r",\s*|\s+", s)`: a separator is a comma with
any following whitespace, or a run of whitespace; `inSep` records that the
previous character extended a separator (whitespace after a comma or
inside a whitespace run extends it, a new comma starts a new separator). -/
def pySplitAux : List Char → List Char → Bool → List String
  | [], acc, _ => [String.mk acc.reverse]
  | c :: rest, acc, inSep =>
    if c = ',' || pyIsSpace c then
      if inSep && pyIsSpace c then pySplitAux rest acc true
      else String.mk acc.reverse :: pySplitAux rest [] true
    else pySplitAux rest (c :: acc) false

/-- Python re.split on commas-with-trailing-space or whitespace runs, as used by the list-field setters. -/
def pySplit (s : String) : List String := pySplitAux s.data [] false

/-- Worker for the double-colon split used by the classifier scan (Python str.split on the two-character separator). -/
def splitColonsAux : List Char → List Char → List String
  | [], acc => [String.mk acc.reverse]
  | ':' :: ':' :: rest, acc => String.mk acc.reverse :: splitColonsAux rest []
  | c :: rest, acc => splitColonsAux rest (c :: acc)

/-- Split a whole string on the double-colon separator. -/
def splitColons (s : String) : List String := splitColonsAux s.data []

/-- Whether `pfx` is a literal prefix of `s` (used for the `name.*` glob match). -/
def strStartsWith (s pfx : String) : Bool := pfx.data.isPrefixOf s.data

/-- The pathlib suffix of a file name: the final dot-extension when the last
dot sits strictly inside the name (not first and not last position), else the
empty string. -/
def pathSuffix (n : String) : String :=
  match n.data.foldl (fun acc c => if c = '.' then ([], true) else (c :: acc.1, acc.2))
      (([] : List Char), false) with
  | (ext, sawDot) =>
    if sawDot && ext.length > 0 && n.data.length - ext.length - 1 > 0 then
      "." ++ String.mk ext.reverse
    else ""

/-- Platform recognition of `_get_platform` from the runtime identifiers; the
source falls through with no `return`, i.e. yields Python `None`, on any
other identifier. -/
def get_platform (sysPlatform osName : String) : Option String :=
  if sysPlatform = "darwin" then some "darwin"
  else if osName = "nt" || strStartsWith sysPlatform "win" then some "win"
  else if strStartsWith sysPlatform "linux" then some "linux"
  else Option.none

/-- The `_ICON_EXT` dictionary; lookup of an absent key is a `KeyError`,
modelled by `Option.none`. -/
def ICON_EXT : String → Option (List String)
  | "linux" => some ["ico", "svg", "png"]
  | "win" => some ["ico"]
  | "darwin" => some ["icns"]
  | _ => Option.none

/-- The fixed `_FREE_DESKTOP_CATEGORIES` list (12 entries). -/
def FREE_DESKTOP_CATEGORIES : List String :=
  ["AudioVideo", "Audio", "Video", "Development", "Education", "Game",
   "Graphics", "Network", "Office", "Settings", "System", "Utility"]

/-- The keys of the `_LINUX_SPECIAL_ARGS` dictionary. -/
def LINUX_SPECIAL_ARG_KEYS : List String :=
  ["SINGLE_FILE", "FILES_LIST", "SINGLE_URL", "URLS_LIST"]

/-- A Python value as it appears in the icon root comparison: the setter
compares `i.root` (a `str`) with `_here` (a `Path`); values of different
runtime types are never equal in Python. -/
inductive PyObj where
  | pstr (s : String)
  | ppath (p : String)

/-- Python `==` between the two runtime types involved in the icon root
check: `str` and `Path` values never compare equal with each other. -/
def pyObjEq : PyObj → PyObj → Bool
  | PyObj.pstr a, PyObj.pstr b => a == b
  | PyObj.ppath a, PyObj.ppath b => a == b
  | _, _ => false

/-- `pathlib.Path.root` of a POSIX path string. -/
def pathRoot (p : String) : String := if strStartsWith p "/" then "/" else ""

/-- Argument to the `icon` setter: `None`, a single path, or a list. -/
inductive IconArg where
  | none
  | single (p : String)
  | list (ps : List String)

/-- Argument to the list-field setters (`arguments`, `keywords`,
`mime_type`): `None`, a string, or a list of values. -/
inductive ListArg where
  | pynone
  | pystr (s : String)
  | pylist (l : List PyVal)

/-- The loop body of the icon setter: `for i in self._icon: if i.root !=
_here: raise AttributeError(...)`.  `i.root` is a `str` and `_here` a
`Path`, so `pyObjEq` is `false` for every element. -/
def iconCheck (here : String) : List String → Except String Unit
  | [] => Except.ok ()
  | i :: rest =>
    if pyObjEq (PyObj.pstr (pathRoot i)) (PyObj.ppath here) then iconCheck here rest
    else Except.error ("icon " ++ i ++ " path not inside source directory")

/-- The `icon` setter: normalise the argument to a list of paths, then run
the root check over every element. -/
def set_icon (here : String) (arg : IconArg) : Except String (List String) :=
  let icons : List String :=
    match arg with
    | IconArg.list ps => ps
    | IconArg.single p => if p != "" then [p] else []
    | IconArg.none => []
  match iconCheck here icons with
  | Except.ok _ => Except.ok icons
  | Except.error e => Except.error e

/-- The list-field setters (`arguments`, `keywords`, `mime_type`): a list
is mapped through `str`, a string is regex-split, `None` becomes `[]`. -/
def set_list : ListArg → List String
  | ListArg.pylist l => l.map pyStr
  | ListArg.pystr s => pySplit s
  | ListArg.pynone => []

/-- The `special_arg` setter: keys of `_LINUX_SPECIAL_ARGS` are accepted,
`None` stores the empty string, anything else raises. -/
def set_special_arg : Option String → Except String String
  | some s =>
    if LINUX_SPECIAL_ARG_KEYS.contains s then Except.ok s
    else Except.error ("Wrong type for " ++ s)
  | Option.none => Except.ok ""

/-- The `category` setter: members of `_FREE_DESKTOP_CATEGORIES` are
accepted unchanged, `None` stores the empty string, anything else raises. -/
def set_category : Option String → Except String String
  | some s =>
    if FREE_DESKTOP_CATEGORIES.contains s then Except.ok s
    else Except.error "Arguments should be one of the Free Desktop categories"
  | Option.none => Except.ok ""

/-- The normalized `Shortcut` record after all setters ran. -/
structure Shortcut where
  script : String
  name : String
  generic_name : String
  description : String
  icon : List String
  arguments : List String
  special_arg : String
  category : String
  keywords : List String
  mime_type : List String
deriving DecidableEq

/-- Record equality between two records: equality of the `name` fields. -/
def shortcutEq (a b : Shortcut) : Bool := a.name == b.name

/-- Record hashing: the hash of the `name` field. -/
def shortcutHash (s : Shortcut) : UInt64 := hash s.name

/-- Construction of a record: run every setter in source order (the scalar
setters cannot fail); the first raising setter aborts construction. -/
def mkShortcut (here : String) (script name generic_name description : PyVal)
    (icon : IconArg) (arguments : ListArg) (special_arg : Option String)
    (category : Option String) (keywords mime_type : ListArg) :
    Except String Shortcut :=
  match set_icon here icon with
  | Except.error e => Except.error e
  | Except.ok ic =>
    match set_special_arg special_arg with
    | Except.error e => Except.error e
    | Except.ok sp =>
      match set_category category with
      | Except.error e => Except.error e
      | Except.ok cat =>
        Except.ok
          { script := setScalar script, name := setScalar name,
            generic_name := setScalar generic_name,
            description := setScalar description, icon := ic,
            arguments := set_list arguments, special_arg := sp,
            category := cat, keywords := set_list keywords,
            mime_type := set_list mime_type }

/-- Registration of a freshly built record: a set add is a no-op when an
equal (same-`name`) element is already present; the set's contents are
carried as a list in insertion order.  The carried order records only
membership: Python iterates the set in an arbitrary order, which
`get_metadatas_iter` therefore takes as an explicit input. -/
def registerInstance (reg : List Shortcut) (s : Shortcut) : List Shortcut :=
  if reg.any (fun t => shortcutEq t s) then reg else reg ++ [s]

/-- Allocation of a record: construct it, then add it to the class-level
registry. -/
def shortcutNew (here : String) (reg : List Shortcut)
    (script name generic_name description : PyVal) (icon : IconArg)
    (arguments : ListArg) (special_arg : Option String)
    (category : Option String) (keywords mime_type : ListArg) :
    Except String (Shortcut × List Shortcut) :=
  match mkShortcut here script name generic_name description icon arguments
      special_arg category keywords mime_type with
  | Except.error e => Except.error e
  | Except.ok s => Except.ok (s, registerInstance reg s)

/-- The registry scan of `_get_metadatas` over a given iteration sequence:
the first visited record whose `script` equals the resolved script, else
the freshly built bare record.  The sequence handed to it is an iteration
order of the set contents; Python does not fix which one. -/
def scanRegistry (reg : List Shortcut) (script : String) (dflt : Shortcut) :
    Shortcut :=
  match reg.find? (fun s => s.script == script) with
  | some s => s
  | Option.none => dflt

/-- The inner classifier scan of `_get_metadatas`: of a classifier split
on `::` with each segment stripped, when the first segment is `Topic`, the
first segment belonging to `_FREE_DESKTOP_CATEGORIES` (assigned through
the category setter, whose membership check it already satisfies). -/
def firstCategorySegment (cf : String) : Option String :=
  let segs := (splitColons cf).map pyStrip
  match segs with
  | [] => Option.none
  | c0 :: _ =>
    if c0 = "Topic" then segs.find? (fun c => FREE_DESKTOP_CATEGORIES.contains c)
    else Option.none

/-- The category inference loop: every matching classifier overwrites the
category in turn (the inner `break` leaves the outer loop running). -/
def inferCategory (init : String) (classifiers : List String) : String :=
  classifiers.foldl
    (fun acc cf =>
      match firstCategorySegment cf with
      | some c => c
      | Option.none => acc)
    init

/-- One pass of `for ic in shortcut.icon: if not ic.exists():
shortcut.icon.remove(ic)`: the list iterator advances its index by one
each step while `remove` deletes the first occurrence in place, so the
element following a removal is skipped.  `fuel` bounds the iteration
count (the index grows each step, so the initial length suffices). -/
def pyRemoveLoop (onDisk : String → Bool) : Nat → Nat → List String → List String
  | 0, _, l => l
  | fuel + 1, i, l =>
    if h : i < l.length then
      let x := l.get ⟨i, h⟩
      if onDisk x then pyRemoveLoop onDisk fuel (i + 1) l
      else pyRemoveLoop onDisk fuel (i + 1) (l.erase x)
    else l

/-- The existing-icon filter of `_get_metadatas` (resolution step for a
record whose icon list is already non-empty). -/
def filterExisting (onDisk : String → Bool) (l : List String) : List String :=
  pyRemoveLoop onDisk l.length 0 l

/-- Read-only distribution metadata consumed by `_get_metadatas`. -/
structure Distribution where
  description : String
  classifiers : List String
  keywords : List String

/-- The filesystem as seen by `_get_metadatas`: whether `data/` is a
directory, the file names inside it, and per-path existence. -/
structure FS where
  dataIsDir : Bool
  dataFiles : List String
  pathExists : String → Bool

/-- The per-element suffix filter of the icon glob: `icon.suffix in
_ICON_EXT[_get_platform()]`, with the dictionary lookup re-evaluated for
each element (so an unrecognised platform only raises when the glob found
at least one candidate file). -/
def filterBySuffix (sysP osN : String) : List String → Except String (List String)
  | [] => Except.ok []
  | f :: rest =>
    match get_platform sysP osN with
    | Option.none => Except.error "KeyError: None"
    | some p =>
      match ICON_EXT p with
      | Option.none => Except.error ("KeyError: " ++ p)
      | some exts =>
        match filterBySuffix sysP osN rest with
        | Except.error e => Except.error e
        | Except.ok tail =>
          Except.ok (if exts.contains (pathSuffix f) then f :: tail else tail)

/-- The icon resolution step of `_get_metadatas`: when the icon list is
empty, glob `data/` for `name.*` files with a whitelisted suffix and
assign the result through the icon setter (or assign `None` when `data/`
is not a directory); otherwise run the in-place existence filter. -/
def iconStep (here : String) (fs : FS) (sysP osN : String) (sc : Shortcut) :
    Except String Shortcut :=
  if sc.icon.isEmpty then
    if fs.dataIsDir then
      match filterBySuffix sysP osN
          (fs.dataFiles.filter (fun f => strStartsWith f (sc.name ++ "."))) with
      | Except.error e => Except.error e
      | Except.ok icons =>
        match set_icon here (IconArg.list icons) with
        | Except.error e => Except.error e
        | Except.ok ic => Except.ok { sc with icon := ic }
    else
      match set_icon here IconArg.none with
      | Except.error e => Except.error e
      | Except.ok ic => Except.ok { sc with icon := ic }
  else Except.ok { sc with icon := filterExisting fs.pathExists sc.icon }

/-- Resolution, the `_get_metadatas` method, at the insertion-order
instance of the registry scan (the general form over an arbitrary set
iteration order is `get_metadatas_iter`): build a bare record for the
script (which also registers it), prefer a registered record with the same
`script`, then back-fill every still-empty field in source order. -/
def get_metadatas (here : String) (reg : List Shortcut) (dist : Distribution)
    (fs : FS) (sysP osN : String) (script : String) : Except String Shortcut :=
  match shortcutNew here reg (PyVal.str script) PyVal.none PyVal.none PyVal.none
      IconArg.none ListArg.pynone Option.none Option.none ListArg.pynone
      ListArg.pynone with
  | Except.error e => Except.error e
  | Except.ok (bare, reg2) =>
    let sc0 := scanRegistry reg2 script bare
    let sc1 := if sc0.name = "" then { sc0 with name := setScalar (PyVal.str sc0.script) } else sc0
    let sc2 := if sc1.generic_name = "" then { sc1 with generic_name := setScalar (PyVal.str sc1.name) } else sc1
    match iconStep here fs sysP osN sc2 with
    | Except.error e => Except.error e
    | Except.ok sc3 =>
      let sc4 := if sc3.description = "" then { sc3 with description := setScalar (PyVal.str dist.description) } else sc3
      let sc5 := if sc4.category = "" then { sc4 with category := inferCategory sc4.category dist.classifiers } else sc4
      let sc6 := if sc5.keywords.isEmpty then { sc5 with keywords := set_list (ListArg.pylist (dist.keywords.map PyVal.str)) } else sc5
      Except.ok sc6

/-- Resolution with the set-iteration order made explicit: Python visits
`Shortcut._instances` in an arbitrary order, so `iterOrder` supplies, for
the registry contents at scan time (after the bare record was added), the
sequence the `for` loop walks.  Everything else is as in `get_metadatas`,
which is this function at the insertion-order instance. -/
def get_metadatas_iter (here : String) (reg : List Shortcut)
    (iterOrder : List Shortcut → List Shortcut) (dist : Distribution)
    (fs : FS) (sysP osN : String) (script : String) : Except String Shortcut :=
  match shortcutNew here reg (PyVal.str script) PyVal.none PyVal.none PyVal.none
      IconArg.none ListArg.pynone Option.none Option.none ListArg.pynone
      ListArg.pynone with
  | Except.error e => Except.error e
  | Except.ok (bare, reg2) =>
    let sc0 := scanRegistry (iterOrder reg2) script bare
    let sc1 := if sc0.name = "" then { sc0 with name := setScalar (PyVal.str sc0.script) } else sc0
    let sc2 := if sc1.generic_name = "" then { sc1 with generic_name := setScalar (PyVal.str sc1.name) } else sc1
    match iconStep here fs sysP osN sc2 with
    | Except.error e => Except.error e
    | Except.ok sc3 =>
      let sc4 := if sc3.description = "" then { sc3 with description := setScalar (PyVal.str dist.description) } else sc3
      let sc5 := if sc4.category = "" then { sc4 with category := inferCategory sc4.category dist.classifiers } else sc4
      let sc6 := if sc5.keywords.isEmpty then { sc5 with keywords := set_list (ListArg.pylist (dist.keywords.map PyVal.str)) } else sc5
      Except.ok sc6

/-! ## Supporting lemmas -/

/-- The insertion-order resolution is the identity instance of the
order-explicit one. -/
theorem get_metadatas_iter_id (here : String) (reg : List Shortcut)
    (dist : Distribution) (fs : FS) (sysP osN script : String) :
    get_metadatas_iter here reg (fun l => l) dist fs sysP osN script =
      get_metadatas here reg dist fs sysP osN script := rfl

/-- A registry in which no record carries the resolved script yields no
match in the script scan. -/
theorem find?_script_none (reg : List Shortcut) (scr : String)
    (hreg : ∀ s ∈ reg, s.script ≠ scr) :
    reg.find? (fun s => s.script == scr) = Option.none :=
  List.find?_eq_none.mpr (fun x hx => by simp [hreg x hx])

/-- Registering the bare record and scanning for its script returns the
bare record itself when no previously registered record has that script. -/
theorem scanRegistry_fresh (reg : List Shortcut) (b : Shortcut)
    (hreg : ∀ s ∈ reg, s.script ≠ b.script) :
    scanRegistry (registerInstance reg b) b.script b = b := by
  unfold scanRegistry registerInstance
  by_cases h : reg.any (fun t => shortcutEq t b) = true
  · simp [h, find?_script_none reg b.script hreg]
  · simp [h, List.find?_append, find?_script_none reg b.script hreg, List.find?]

/-- The scalar setter is the identity on strings. -/
theorem setScalar_str (s : String) : setScalar (PyVal.str s) = s := by
  by_cases h : s = ""
  · subst h; rfl
  · simp [setScalar, pyTruthy, pyStr, h]

/-- The list setter is the identity on a list of strings. -/
theorem set_list_map_str (l : List String) :
    set_list (ListArg.pylist (l.map PyVal.str)) = l := by
  unfold set_list
  induction l with
  | nil => rfl
  | cons a t ih => simpa [pyStr] using ih

/-- The icon resolution step leaves the icon list empty when it was empty
and the data directory holds no file whose name starts with the record name
followed by a dot. -/
theorem iconStep_empty (here : String) (fs : FS) (sysP osN : String) (sc : Shortcut)
    (hic : sc.icon = [])
    (hglob : ∀ f ∈ fs.dataFiles, strStartsWith f (sc.name ++ ".") = false) :
    iconStep here fs sysP osN sc = Except.ok { sc with icon := [] } := by
  have hfil : fs.dataFiles.filter (fun f => strStartsWith f (sc.name ++ ".")) = [] :=
    List.filter_eq_nil_iff.mpr (fun a ha => by simp [hglob a ha])
  unfold iconStep
  rw [hic]
  by_cases hd : fs.dataIsDir = true
  · simp [hd, hfil, filterBySuffix, set_icon, iconCheck]
  · simp [hd, set_icon, iconCheck]

/-! ## Claims -/

/-- C1: the claim says an icon path rooted under the package base directory
is accepted and retained, but the setter rejects it: the root component of
the path (the string "/") is compared against the base directory (a Path
value), and values of these two types never compare equal, so every
non-empty icon assignment raises the "not inside source directory" error —
here evaluated on a path that IS inside the base directory `/pkg`. -/
theorem C1_rooted_icon_rejected :
    set_icon "/pkg" (IconArg.list ["/pkg/data/app.png"]) =
      Except.error "icon /pkg/data/app.png path not inside source directory" := rfl

/-- C5 counterexample: platform detection is not total — on the OS
identifier pair ("freebsd12", "posix") it falls through every branch and
returns no tag at all, so the icon-extension lookup keyed by its result
cannot succeed there. -/
theorem C5_unrecognised_platform :
    get_platform "freebsd12" "posix" = Option.none := rfl

/-- C5 (amended): whenever platform detection does return a tag, the tag is
one of exactly 'darwin', 'win', 'linux' and the icon-extension whitelist
lookup keyed by it succeeds; on unrecognised OS identifiers it returns no
tag (see the counterexample), so the lookup fails there. -/
theorem C5_platform_tags (sysP osN t : String)
    (h : get_platform sysP osN = some t) :
    (t = "darwin" ∨ t = "win" ∨ t = "linux") ∧ ICON_EXT t ≠ Option.none := by
  unfold get_platform at h
  split_ifs at h with h1 h2 h3
  · cases h
    exact ⟨Or.inl rfl, by simp [ICON_EXT]⟩
  · cases h
    exact ⟨Or.inr (Or.inl rfl), by simp [ICON_EXT]⟩
  · cases h
    exact ⟨Or.inr (Or.inr rfl), by simp [ICON_EXT]⟩

/-- C5 witness: the amended theorem applied on a Linux platform pair. -/
theorem C5_platform_tags_witness :
    (("linux" : String) = "darwin" ∨ ("linux" : String) = "win" ∨
      ("linux" : String) = "linux") ∧ ICON_EXT "linux" ≠ Option.none :=
  C5_platform_tags "linux" "posix" "linux" rfl

/-- C6: evaluating the resolution-time existence filter on an icon list of
two consecutive paths, neither of which exists on disk: the claim requires
both to be dropped, but removing the first element shifts the list under
the advancing iterator index, so the second missing path is skipped and
retained. -/
theorem C6_existence_filter_skips :
    filterExisting (fun _ => false) ["a.png", "b.png"] = ["b.png"] := rfl

/-- C7: the category setter accepts every member of the fixed 12-item Free
Desktop set unchanged, maps None to the empty string, and fails with the
validation error on any other value. -/
theorem C7_category_validation (c : String) :
    set_category Option.none = Except.ok "" ∧
    (c ∈ FREE_DESKTOP_CATEGORIES →
      set_category (some c) = Except.ok c) ∧
    (c ∉ FREE_DESKTOP_CATEGORIES →
      set_category (some c) =
        Except.error "Arguments should be one of the Free Desktop categories") := by
  refine ⟨rfl, fun h => ?_, fun h => ?_⟩ <;> simp [set_category, h]

/-- C7 witness: a member of the set is accepted unchanged and a non-member
is rejected. -/
theorem C7_category_validation_witness :
    set_category (some "Utility") = Except.ok "Utility" ∧
    set_category (some "Banana") =
      Except.error "Arguments should be one of the Free Desktop categories" :=
  ⟨(C7_category_validation "Utility").2.1 (by decide),
   (C7_category_validation "Banana").2.2 (by decide)⟩

/-- C8 counterexample: the integer 0 is a scalar input the setter accepts
without error, yet the stored field is the empty string while str(0) is
"0" — the claim's equation fails on every falsy non-None scalar. -/
theorem C8_falsy_scalar :
    setScalar (PyVal.int 0) = "" ∧ pyStr (PyVal.int 0) = "0" ∧
    setScalar (PyVal.int 0) ≠ pyStr (PyVal.int 0) :=
  ⟨rfl, by decide, by decide⟩

/-- C8 (amended): the stored field equals str(input) for every truthy
scalar input and for every string input (including the empty string, where
both sides are empty); every falsy input — None, 0, False, '' — stores the
empty string. -/
theorem C8_scalar_normalization (v : PyVal) (s : String) :
    (pyTruthy v = true → setScalar v = pyStr v) ∧
    (pyTruthy v = false → setScalar v = "") ∧
    setScalar (PyVal.str s) = pyStr (PyVal.str s) ∧
    setScalar PyVal.none = "" := by
  refine ⟨fun h => by simp [setScalar, h], fun h => by simp [setScalar, h], ?_, rfl⟩
  by_cases hs : s = ""
  · subst hs; rfl
  · simp [setScalar, pyTruthy, pyStr, hs]

/-- C8 witness: the amended theorem applied to a truthy string and to the
falsy scalar False. -/
theorem C8_scalar_normalization_witness :
    setScalar (PyVal.str "app") = pyStr (PyVal.str "app") ∧
    setScalar (PyVal.bool false) = "" :=
  ⟨(C8_scalar_normalization (PyVal.str "app") "x").1 (by decide),
   (C8_scalar_normalization (PyVal.bool false) "x").2.1 (by decide)⟩

/-- C9: two records are equal exactly when their name fields are equal, and
records with equal names hash identically, regardless of every other
field. -/
theorem C9_eq_hash_by_name (a b : Shortcut) :
    (shortcutEq a b = true ↔ a.name = b.name) ∧
    (a.name = b.name → shortcutHash a = shortcutHash b) := by
  constructor
  · simp [shortcutEq]
  · intro h
    simp [shortcutHash, h]

/-- C9 witness: two records sharing only the name, differing in script,
category and arguments, are equal and hash identically. -/
theorem C9_eq_hash_by_name_witness :
    shortcutEq ⟨"s1", "App", "", "", [], [], "", "", [], []⟩
      ⟨"s2", "App", "g", "d", [], ["x"], "", "Game", [], []⟩ = true ∧
    shortcutHash ⟨"s1", "App", "", "", [], [], "", "", [], []⟩ =
      shortcutHash ⟨"s2", "App", "g", "d", [], ["x"], "", "Game", [], []⟩ :=
  ⟨(C9_eq_hash_by_name _ _).1.mpr rfl, (C9_eq_hash_by_name _ _).2 rfl⟩

/-- C10: constructing a second Shortcut whose name equals the name of an
already-registered record leaves the registry unchanged — the earlier
record remains registered and the newer record is not added, so any later
registry scan can only find the earlier record under that name. -/
theorem C10_duplicate_name_not_added (here : String) (reg reg2 : List Shortcut)
    (t s : Shortcut) (script nm gnm desc : PyVal) (icon : IconArg)
    (arguments : ListArg) (special_arg category : Option String)
    (keywords mime_type : ListArg)
    (ht : t ∈ reg)
    (hnew : shortcutNew here reg script nm gnm desc icon arguments special_arg
      category keywords mime_type = Except.ok (s, reg2))
    (hname : s.name = t.name) :
    reg2 = reg ∧ t ∈ reg2 := by
  unfold shortcutNew at hnew
  cases hmk : mkShortcut here script nm gnm desc icon arguments special_arg
      category keywords mime_type with
  | error e =>
    rw [hmk] at hnew
    exact absurd hnew (by simp)
  | ok s0 =>
    rw [hmk] at hnew
    simp only [Except.ok.injEq, Prod.mk.injEq] at hnew
    obtain ⟨rfl, rfl⟩ := hnew
    have hany : reg.any (fun u => shortcutEq u s0) = true :=
      List.any_eq_true.mpr ⟨t, ht, by simp [shortcutEq, hname]⟩
    unfold registerInstance
    rw [if_pos hany]
    exact ⟨rfl, ht⟩

/-- C10 witness: a record named "App" for script "a" is registered; a
second construction named "App" for script "b" succeeds but leaves the
registry equal to the one-element registry holding the first record. -/
theorem C10_duplicate_name_not_added_witness :
    shortcutNew "/pkg" [⟨"a", "App", "", "", [], [], "", "", [], []⟩]
        (PyVal.str "b") (PyVal.str "App") PyVal.none PyVal.none IconArg.none
        ListArg.pynone Option.none Option.none ListArg.pynone ListArg.pynone =
      Except.ok (⟨"b", "App", "", "", [], [], "", "", [], []⟩,
        [⟨"a", "App", "", "", [], [], "", "", [], []⟩]) ∧
    ([⟨"a", "App", "", "", [], [], "", "", [], []⟩] : List Shortcut) =
        [⟨"a", "App", "", "", [], [], "", "", [], []⟩] ∧
      (⟨"a", "App", "", "", [], [], "", "", [], []⟩ : Shortcut) ∈
        [(⟨"a", "App", "", "", [], [], "", "", [], []⟩ : Shortcut)] :=
  ⟨rfl,
   C10_duplicate_name_not_added "/pkg" [⟨"a", "App", "", "", [], [], "", "", [], []⟩]
     [⟨"a", "App", "", "", [], [], "", "", [], []⟩]
     ⟨"a", "App", "", "", [], [], "", "", [], []⟩
     ⟨"b", "App", "", "", [], [], "", "", [], []⟩
     (PyVal.str "b") (PyVal.str "App") PyVal.none PyVal.none IconArg.none
     ListArg.pynone Option.none Option.none ListArg.pynone ListArg.pynone
     (by simp) rfl rfl⟩

/-- The bare record built by `Shortcut(script)` at the start of resolution. -/
def bareShortcut (script : String) : Shortcut :=
  { script := script, name := "", generic_name := "", description := "",
    icon := [], arguments := [], special_arg := "", category := "",
    keywords := [], mime_type := [] }

/-- Building the bare record always succeeds and registers it. -/
theorem shortcutNew_bare (here : String) (reg : List Shortcut) (s : String) :
    shortcutNew here reg (PyVal.str s) PyVal.none PyVal.none PyVal.none
      IconArg.none ListArg.pynone Option.none Option.none ListArg.pynone
      ListArg.pynone =
    Except.ok (bareShortcut s, registerInstance reg (bareShortcut s)) := by
  unfold shortcutNew mkShortcut
  dsimp only [set_icon, iconCheck, set_special_arg, set_category, set_list]
  rw [show setScalar (PyVal.str s) = s from setScalar_str s]
  rfl

/-- C2: with no user-declared record for "myapp" (no registered record has
that script), package description "A sample app", classifiers
["Topic :: Utility"], keywords ["sample","app"], and no file in the data
directory whose name matches the "myapp.*" glob, resolving "myapp" returns
the record with name, generic name, description, category "Utility",
keywords and an empty icon list exactly as the claim states. -/
theorem C2_inferred_resolution (reg : List Shortcut) (fs : FS) (sysP osN : String)
    (hreg : ∀ s ∈ reg, s.script ≠ "myapp")
    (hglob : ∀ f ∈ fs.dataFiles, strStartsWith f "myapp." = false) :
    get_metadatas "/pkg" reg ⟨"A sample app", ["Topic :: Utility"], ["sample", "app"]⟩
        fs sysP osN "myapp" =
      Except.ok { script := "myapp", name := "myapp", generic_name := "myapp",
                  description := "A sample app", icon := [], arguments := [],
                  special_arg := "", category := "Utility",
                  keywords := ["sample", "app"], mime_type := [] } := by
  have hscan : scanRegistry (registerInstance reg (bareShortcut "myapp")) "myapp"
      (bareShortcut "myapp") = bareShortcut "myapp" :=
    scanRegistry_fresh reg (bareShortcut "myapp") hreg
  unfold get_metadatas
  rw [shortcutNew_bare]
  dsimp only
  rw [hscan]
  simp [bareShortcut, setScalar_str]
  rw [iconStep_empty "/pkg" fs sysP osN
      { script := "myapp", name := "myapp", generic_name := "myapp", description := "",
        icon := [], arguments := [], special_arg := "", category := "", keywords := [],
        mime_type := [] } rfl hglob]
  rfl

/-- C2 witness: the resolution scenario with an empty registry, an existing
but empty data directory and a Linux platform pair. -/
theorem C2_inferred_resolution_witness :
    get_metadatas "/pkg" [] ⟨"A sample app", ["Topic :: Utility"], ["sample", "app"]⟩
        ⟨true, [], fun _ => false⟩ "linux" "posix" "myapp" =
      Except.ok { script := "myapp", name := "myapp", generic_name := "myapp",
                  description := "A sample app", icon := [], arguments := [],
                  special_arg := "", category := "Utility",
                  keywords := ["sample", "app"], mime_type := [] } :=
  C2_inferred_resolution [] ⟨true, [], fun _ => false⟩ "linux" "posix"
    (by simp) (by simp)

/-- C3 counterexample: resolving with the classifiers
["Topic :: Utility", "Topic :: Game"] yields category "Game" — the later
matching classifier overwrites the earlier one, refuting the claim that
once a value is found later classifiers do not change the category
(which would give "Utility"). -/
theorem C3_first_match_not_kept :
    (get_metadatas "/pkg" [] ⟨"d", ["Topic :: Utility", "Topic :: Game"], []⟩
        ⟨false, [], fun _ => false⟩ "linux" "posix" "app").toOption.map Shortcut.category
      = some "Game" ∧
    (get_metadatas "/pkg" [] ⟨"d", ["Topic :: Utility", "Topic :: Game"], []⟩
        ⟨false, [], fun _ => false⟩ "linux" "posix" "app").toOption.map Shortcut.category
      ≠ some "Utility" :=
  ⟨rfl, by decide⟩

/-- C3 (amended): when the record's category is empty, each classifier whose
first stripped segment is 'Topic' and which contains a segment in the fixed
12-item set overwrites the category with its first such segment — the scan
does not stop at the first match, so a final matching classifier determines
the result regardless of all preceding classifiers. -/
theorem C3_last_match_wins (pre : List String) (cf c init : String)
    (h : firstCategorySegment cf = some c) :
    inferCategory init (pre ++ [cf]) = c := by
  unfold inferCategory
  rw [List.foldl_append]
  simp [h]

/-- C3 witness: the amended theorem applied with a preceding matching
classifier, showing the final classifier's value "Game" wins. -/
theorem C3_last_match_wins_witness :
    firstCategorySegment "Topic :: Game" = some "Game" ∧
    inferCategory "" (["Topic :: Utility"] ++ ["Topic :: Game"]) = "Game" :=
  ⟨by decide, C3_last_match_wins ["Topic :: Utility"] "Topic :: Game" "Game" "" (by decide)⟩

/-- A user-declared record for script "myapp" with explicit name
"My Application" and category "Graphics" and every other field unset. -/
def userShortcut : Shortcut :=
  { script := "myapp", name := "My Application", generic_name := "", description := "",
    icon := [], arguments := [], special_arg := "", category := "Graphics",
    keywords := [], mime_type := [] }

/-- C4 counterexample: the registry holds the user-declared record (name
"My Application", category "Graphics", shown constructible by the first
conjunct), yet resolution does not keep the explicit name and category:
the freshly registered bare record for "myapp" also matches the script
scan, and under the set-iteration order that visits it first — a
permutation of the registry contents at scan time, as the middle conjunct
certifies — the resolved record is the fully inferred one (name "myapp",
category "Utility"), not the override. -/
theorem C4_bare_first_loses_override :
    mkShortcut "/pkg" (PyVal.str "myapp") (PyVal.str "My Application") PyVal.none
        PyVal.none IconArg.none ListArg.pynone Option.none (some "Graphics")
        ListArg.pynone ListArg.pynone = Except.ok userShortcut ∧
    List.Perm [bareShortcut "myapp", userShortcut]
      (registerInstance [userShortcut] (bareShortcut "myapp")) ∧
    get_metadatas_iter "/pkg" [userShortcut]
        (fun _ => [bareShortcut "myapp", userShortcut])
        ⟨"A sample app", ["Topic :: Utility"], ["sample", "app"]⟩
        ⟨false, [], fun _ => false⟩ "darwin" "posix" "myapp" =
      Except.ok { script := "myapp", name := "myapp", generic_name := "myapp",
                  description := "A sample app", icon := [], arguments := [],
                  special_arg := "", category := "Utility",
                  keywords := ["sample", "app"], mime_type := [] } ∧
    (get_metadatas_iter "/pkg" [userShortcut]
        (fun _ => [bareShortcut "myapp", userShortcut])
        ⟨"A sample app", ["Topic :: Utility"], ["sample", "app"]⟩
        ⟨false, [], fun _ => false⟩ "darwin" "posix" "myapp").toOption.map Shortcut.name
      ≠ some "My Application" :=
  ⟨rfl, by decide, rfl, by decide⟩

/-- C4 (amended): with the user-declared record (explicit name
"My Application", category "Graphics") registered for script "myapp",
resolution keeps the explicit name and category and back-fills
generic_name from name and description/keywords from the package metadata
WHEN the registry's set-iteration order lets the scan find the
user-declared record (rather than the freshly registered bare record,
which also matches); the registry being an unordered set, the opposite
order instead discards the override (see the counterexample). -/
theorem C4_explicit_override_ordered (dist : Distribution) (fs : FS)
    (sysP osN : String) (iterOrder : List Shortcut → List Shortcut)
    (hfind : (iterOrder [userShortcut, bareShortcut "myapp"]).find?
      (fun s => s.script == "myapp") = some userShortcut)
    (hglob : ∀ f ∈ fs.dataFiles, strStartsWith f "My Application." = false) :
    mkShortcut "/pkg" (PyVal.str "myapp") (PyVal.str "My Application") PyVal.none
        PyVal.none IconArg.none ListArg.pynone Option.none (some "Graphics")
        ListArg.pynone ListArg.pynone = Except.ok userShortcut ∧
    get_metadatas_iter "/pkg" [userShortcut] iterOrder dist fs sysP osN "myapp" =
      Except.ok { script := "myapp", name := "My Application",
                  generic_name := "My Application", description := dist.description,
                  icon := [], arguments := [], special_arg := "",
                  category := "Graphics", keywords := dist.keywords, mime_type := [] } := by
  constructor
  · rfl
  · unfold get_metadatas_iter
    rw [shortcutNew_bare]
    dsimp only
    rw [show registerInstance [userShortcut] (bareShortcut "myapp")
        = [userShortcut, bareShortcut "myapp"] from rfl]
    unfold scanRegistry
    rw [hfind]
    simp [userShortcut, setScalar_str]
    rw [iconStep_empty "/pkg" fs sysP osN
        { script := "myapp", name := "My Application", generic_name := "My Application",
          description := "", icon := [], arguments := [], special_arg := "",
          category := "Graphics", keywords := [], mime_type := [] } rfl hglob]
    simp [setScalar_str, set_list_map_str]

/-- C4 witness: the override scenario with concrete package metadata, no
data directory, and the insertion iteration order — one admissible order,
under which the scan does find the user record first. -/
theorem C4_explicit_override_ordered_witness :
    mkShortcut "/pkg" (PyVal.str "myapp") (PyVal.str "My Application") PyVal.none
        PyVal.none IconArg.none ListArg.pynone Option.none (some "Graphics")
        ListArg.pynone ListArg.pynone = Except.ok userShortcut ∧
    get_metadatas_iter "/pkg" [userShortcut] (fun l => l)
        ⟨"A sample app", [], ["sample", "app"]⟩
        ⟨false, [], fun _ => false⟩ "darwin" "posix" "myapp" =
      Except.ok { script := "myapp", name := "My Application",
                  generic_name := "My Application", description := "A sample app",
                  icon := [], arguments := [], special_arg := "",
                  category := "Graphics", keywords := ["sample", "app"],
                  mime_type := [] } :=
  C4_explicit_override_ordered ⟨"A sample app", [], ["sample", "app"]⟩
    ⟨false, [], fun _ => false⟩ "darwin" "posix" (fun l => l) (by decide) (by simp)
